import Mathlib

/-!
Verification of the milk.com barcode server's symbol-encoding and bitmap
engine.  The development shallowly embeds two layers of the repository:

* `BarcodeC`: the historical C implementation (`src/original-code/barcode.c`),
  in particular its `Bitmap` structure and the `makeBitmap` / `bitmapGetByte` /
  `bitmapGet` / `bitmapSet` operations.  C `int`s are modelled as `Int`; the
  uninitialized bytes produced by `malloc` are modelled by parameterizing
  `makeBitmap` over the allocator's residual memory contents.

* `BarcodeJs`: the current JavaScript implementation
  (`src/lib/BarcodeBitmap.js` (= `src/unnamed/part_006`), `src/lib/Barcode.js`,
  `src/lib/Text.js`).  The file `src/lib/Bitmap.js` is not part of the source
  snapshot, so the primitive bitmap operations (`new Bitmap`, `setPixel`,
  `vlin`, `drawChar5x8`, `copyRect`) are modelled from the specification's
  Bitmap contract; every such definition is marked `Modelled from the spec:`.
  Everything else is translated directly from the JavaScript source.
-/

namespace BarcodeC

/-- The C `Bitmap` struct: `int width; int height; int widthBytes;
unsigned char *buf`.  The buffer is modelled as a function from byte index to
byte value. -/
structure Bitmap where
  width : Int
  height : Int
  widthBytes : Int
  buf : Int → Nat

/-- `makeBitmap` from barcode.c: `widthBytes = (width + 7) / 8` (C truncating
division) and `buf = malloc (height * widthBytes)`.  `malloc` does not clear
the allocation, so the buffer holds the allocator's residual bytes; these are
supplied by the `mem` parameter (reduced mod 256, as `unsigned char`).  The C
function performs no dimension validation and no zero fill. -/
def makeBitmap (width height : Int) (mem : Int → Nat) : Bitmap :=
  { width := width
    height := height
    widthBytes := (width + 7).tdiv 8
    buf := fun i => mem i % 256 }

/-- `bitmapGetByte` from barcode.c: returns 0 when the byte coordinates are
out of range, else the stored byte. -/
def bitmapGetByte (b : Bitmap) (xByte y : Int) : Nat :=
  if xByte < 0 ∨ b.widthBytes ≤ xByte ∨ y < 0 ∨ b.height ≤ y then 0
  else b.buf (b.widthBytes * y + xByte)

/-- `bitmapGet` from barcode.c: `xbyte = x >> 3` (arithmetic shift, i.e.
floor division, `Int.ediv` for the positive divisor 8) and `xbit = x & 0x7`
(the nonnegative remainder, `Int.emod`); the result is
`(byteValue & (1 << xbit)) >> xbit`.  (The `/` and `%` below are `Int.ediv`
and `Int.emod`, which agree with the arithmetic shift and mask of the source
for the positive divisor 8.) -/
def bitmapGet (b : Bitmap) (x y : Int) : Nat :=
  let xbyte : Int := x / 8
  let xbit : Nat := (x % 8).toNat
  let byteValue := bitmapGetByte b xbyte y
  (byteValue &&& (1 <<< xbit)) >>> xbit

/-- `bitmapSet` from barcode.c: ignores out-of-range coordinates; otherwise
ors in or masks out the addressed bit (`value` is a C `int`, tested for
nonzero). -/
def bitmapSet (b : Bitmap) (x y : Int) (value : Nat) : Bitmap :=
  let xbyte : Int := x / 8
  let xbit : Nat := (x % 8).toNat
  if x < 0 ∨ b.width ≤ x ∨ y < 0 ∨ b.height ≤ y then b
  else
    { b with
      buf := fun i =>
        if i = b.widthBytes * y + xbyte then
          if value ≠ 0 then b.buf i ||| (1 <<< xbit)
          else b.buf i &&& (255 ^^^ (1 <<< xbit))
        else b.buf i }

/-- Residual allocator memory that is all ones, used to witness that the C
code exposes uninitialized malloc contents. -/
def memFF : Int → Nat := fun _ => 255

end BarcodeC

namespace BarcodeJs

/-- `#charToDigit` from BarcodeBitmap.js: character code minus the code of
`'0'`, clamped to 0 for anything outside `'0'..'9'`. -/
def charToDigit (c : Char) : Nat :=
  if 48 ≤ c.toNat ∧ c.toNat ≤ 57 then c.toNat - 48 else 0

/-- `String(n)` applied to a single checksum digit: the digit character. -/
def digitToChar (n : Nat) : Char :=
  Char.ofNat (48 + n)

/-- Is the character an ASCII digit (regex class `[0-9]`)? -/
def isDigitChar (c : Char) : Bool :=
  decide ('0' ≤ c ∧ c ≤ '9')

/-- The `#upcLeftA` pattern table from BarcodeBitmap.js. -/
def upcLeftA : List Nat :=
  [0x0d, 0x19, 0x13, 0x3d, 0x23, 0x31, 0x2f, 0x3b, 0x37, 0x0b]

/-- The `#upcLeftB` pattern table from BarcodeBitmap.js. -/
def upcLeftB : List Nat :=
  [0x27, 0x33, 0x1b, 0x21, 0x1d, 0x39, 0x05, 0x11, 0x09, 0x17]

/-- The `#upcRight` pattern table from BarcodeBitmap.js. -/
def upcRight : List Nat :=
  [0x72, 0x66, 0x6c, 0x42, 0x5c, 0x4e, 0x50, 0x44, 0x48, 0x74]

/-- The `#ean13FirstDigit` pattern table from BarcodeBitmap.js. -/
def ean13FirstDigit : List Nat :=
  [0x00, 0x0b, 0x0d, 0x0e, 0x13, 0x19, 0x1c, 0x15, 0x16, 0x1a]

/-- The `#upcELastDigit` pattern table from BarcodeBitmap.js. -/
def upcELastDigit : List Nat :=
  [0x38, 0x34, 0x32, 0x31, 0x2c, 0x26, 0x23, 0x2a, 0x29, 0x25]

/-- Bitwise complement restricted to a 7-bit value. -/
def compl7 (n : Nat) : Nat :=
  n ^^^ 127

/-- Reversal of the 7 low bits of a value (bit i moves to bit 6 - i). -/
def rev7 (n : Nat) : Nat :=
  (List.range 7).foldl (fun acc i => acc + if n.testBit i then 2 ^ (6 - i) else 0) 0

/-- The checksum loop shared by `makeUpcA` and `#expandToUpcADigits`:
`mul` starts at 3 and toggles between 3 and 1 via `mul ^= 2`; the loop sums
`digit * mul` over the first 11 characters.  The result is
`(10 - (sum % 10)) % 10`. -/
def upcACheckDigit (digits : List Char) : Nat :=
  let p := (List.range 11).foldl
    (fun (p : Nat × Nat) i => (p.1 + charToDigit (digits.getD i '0') * p.2, p.2 ^^^ 2))
    (0, 3)
  (10 - p.1 % 10) % 10

/-- The checksum loop of `makeEan13`: `mul` starts at 1 and toggles between
1 and 3 via `mul ^= 2`, summed over the first 12 characters. -/
def ean13CheckDigit (digits : List Char) : Nat :=
  let p := (List.range 12).foldl
    (fun (p : Nat × Nat) i => (p.1 + charToDigit (digits.getD i '0') * p.2, p.2 ^^^ 2))
    (0, 1)
  (10 - p.1 % 10) % 10

/-- The checksum loop of `makeEan8`: `mul` starts at 3, summed over the first
7 characters. -/
def ean8CheckDigit (digits : List Char) : Nat :=
  let p := (List.range 7).foldl
    (fun (p : Nat × Nat) i => (p.1 + charToDigit (digits.getD i '0') * p.2, p.2 ^^^ 2))
    (0, 3)
  (10 - p.1 % 10) % 10

/-- The validation regex of `makeUpcA`: `/^[0-9]{11}[?0-9]$/`. -/
def upcAGateValid (digits : List Char) : Bool :=
  digits.length = 12 && (digits.take 11).all isDigitChar &&
    (digits.getD 11 ' ' = '?' || isDigitChar (digits.getD 11 ' '))

/-- The digit-completion step of `makeUpcA`: reject unless the gate regex
matches; then, when the final character is `?`, replace it (the only possible
`?`, by the gate) with the computed check digit. -/
def upcACompleteDigits (digits : List Char) : Except String (List Char) :=
  if ¬ upcAGateValid digits then
    Except.error "UPC-A must have 12 digits."
  else if digits.getD 11 ' ' = '?' then
    Except.ok (digits.take 11 ++ [digitToChar (upcACheckDigit digits)])
  else
    Except.ok digits

/-- The validation regex of `makeEan13`: `/^[0-9]{12}[?0-9]$/`. -/
def ean13GateValid (digits : List Char) : Bool :=
  digits.length = 13 && (digits.take 12).all isDigitChar &&
    (digits.getD 12 ' ' = '?' || isDigitChar (digits.getD 12 ' '))

/-- The digit-completion step of `makeEan13`: `null` (here `none`) unless the
gate regex matches; then, when the final character is `?`, replace it with the
computed check digit, else use the supplied digit unchanged. -/
def ean13CompleteDigits (digits : List Char) : Option (List Char) :=
  if ¬ ean13GateValid digits then
    none
  else if digits.getD 12 ' ' = '?' then
    some (digits.take 12 ++ [digitToChar (ean13CheckDigit digits)])
  else
    some digits

/-- The validation regex of `makeEan8`: `/^[0-9]{7}[?0-9]$/`. -/
def ean8GateValid (digits : List Char) : Bool :=
  digits.length = 8 && (digits.take 7).all isDigitChar &&
    (digits.getD 7 ' ' = '?' || isDigitChar (digits.getD 7 ' '))

/-- The digit-completion step of `makeEan8`, analogous to `makeEan13`. -/
def ean8CompleteDigits (digits : List Char) : Option (List Char) :=
  if ¬ ean8GateValid digits then
    none
  else if digits.getD 7 ' ' = '?' then
    some (digits.take 7 ++ [digitToChar (ean8CheckDigit digits)])
  else
    some digits

/-- Does the list contain four consecutive `'0'` characters?  (Scans each
window of four.) -/
def hasRun0000 : List Char → Bool
  | [] => false
  | a :: rest =>
    (decide (a = '0') && decide (rest.take 3 = ['0', '0', '0'])) || hasRun0000 rest

/-- The validation regex of `makeUpcE`:
`/^([01]?[0-9]{6}|[01](?=.*0000)[0-9]{10})[?0-9]$/`.
The first alternative matches 7 characters (6 digits and a final digit or
`?`) or 8 characters (a leading `0` or `1`, then the same).  The second
alternative matches 12 characters whose first is `0` or `1`; the lookahead
`(?=.*0000)` holds exactly when `0000` occurs as a substring of the
characters after position 0; the next ten characters are digits and the last
is a digit or `?`. -/
def upcEGateValid (digits : List Char) : Bool :=
  let lastOk := fun (c : Char) => c = '?' || isDigitChar c
  (digits.length = 7 && (digits.take 6).all isDigitChar
      && lastOk (digits.getD 6 ' '))
  || (digits.length = 8 && (digits.getD 0 ' ' = '0' || digits.getD 0 ' ' = '1')
      && ((digits.drop 1).take 6).all isDigitChar
      && lastOk (digits.getD 7 ' '))
  || (digits.length = 12 && (digits.getD 0 ' ' = '0' || digits.getD 0 ' ' = '1')
      && hasRun0000 (digits.drop 1)
      && ((digits.drop 1).take 10).all isDigitChar
      && lastOk (digits.getD 11 ' '))

/-- `#compressToUpcEDigits` from BarcodeBitmap.js: compresses a 12-character
expanded form into the 8-character UPC-E form, throwing (modelled as
`Except.error`) when the structural zero-run requirements fail.  The source
assigns `compressed[7] = expanded[11]` up front; here that entry is written
at the tail of each result list, which builds the same array. -/
def compressToUpcEDigits (expanded : List Char) : Except String (List Char) :=
  let g := fun (i : Nat) => expanded.getD i ' '
  if g 0 ≠ '0' ∧ g 0 ≠ '1' then
    Except.error "UPC-E expanded form must start with 0 or 1."
  else if g 5 ≠ '0' then
    if g 6 ≠ '0' ∨ g 7 ≠ '0' ∨ g 8 ≠ '0' ∨ g 9 ≠ '0' ∨ g 10 < '5' then
      Except.error "Invalid UPC-E expanded form."
    else
      Except.ok [g 0, g 1, g 2, g 3, g 4, g 5, g 10, g 11]
  else if g 4 ≠ '0' then
    if g 6 ≠ '0' ∨ g 7 ≠ '0' ∨ g 8 ≠ '0' ∨ g 9 ≠ '0' then
      Except.error "Invalid UPC-E expanded form."
    else
      Except.ok [g 0, g 1, g 2, g 3, g 4, g 10, '4', g 11]
  else if g 3 ≠ '0' ∧ g 3 ≠ '1' ∧ g 3 ≠ '2' then
    if g 6 ≠ '0' ∨ g 7 ≠ '0' ∨ g 8 ≠ '0' then
      Except.error "Invalid UPC-E expanded form."
    else
      Except.ok [g 0, g 1, g 2, g 3, g 9, g 10, '3', g 11]
  else
    if g 6 ≠ '0' ∨ g 7 ≠ '0' then
      Except.error "Invalid UPC-E expanded form."
    else
      Except.ok [g 0, g 1, g 2, g 8, g 9, g 10, g 3, g 11]

/-- `#expandToUpcADigits` from BarcodeBitmap.js: expands the 8-character
compressed form into the 12-character UPC-A form (the switch on
`compressed[6]` selects the template; `expanded[6] = expanded[7] = '0'`),
then computes the check digit when position 11 is `?`. -/
def expandToUpcADigits (compressed : List Char) : Except String (List Char) :=
  let g := fun (i : Nat) => compressed.getD i ' '
  if g 0 ≠ '0' ∧ g 0 ≠ '1' then
    Except.error "UPC-E must start with an explicit or implied 0 or 1."
  else
    let middle : List Char :=
      if g 6 = '0' ∨ g 6 = '1' ∨ g 6 = '2' then
        [g 1, g 2, g 6, '0', '0', '0', '0', g 3, g 4, g 5]
      else if g 6 = '3' then
        [g 1, g 2, g 3, '0', '0', '0', '0', '0', g 4, g 5]
      else if g 6 = '4' then
        [g 1, g 2, g 3, g 4, '0', '0', '0', '0', '0', g 5]
      else
        [g 1, g 2, g 3, g 4, g 5, '0', '0', '0', '0', g 6]
    let pre := g 0 :: middle
    let last := if g 7 = '?' then digitToChar (upcACheckDigit pre) else g 7
    Except.ok (pre ++ [last])

/-- A 5x8 glyph font: character, glyph row (0..7), glyph column (0..4) to
bit.  The source file holding the font table (`Bitmap.js`) is not part of the
snapshot, so glyph shapes are kept abstract; the rendering pipeline is
parameterized over them. -/
def Font : Type := Char → Nat → Nat → Bool

/-- Modelled from the spec: the Bitmap data model of the specification,
standing in for the missing `Bitmap.js` — a width x height grid of 1-bit
pixels, represented by a predicate on coordinates. -/
structure JsBitmap where
  width : Nat
  height : Nat
  px : Nat → Nat → Bool

/-- Modelled from the spec: `new Bitmap(width, height)` of the missing
`Bitmap.js` — a zero-filled (all-space) bitmap. -/
def JsBitmap.make (width height : Nat) : JsBitmap :=
  { width := width, height := height, px := fun _ _ => false }

/-- Modelled from the spec: `setPixel` of the missing `Bitmap.js` — sets
the bit if in bounds, and is a no-op out of bounds. -/
def setPixel (b : JsBitmap) (x y : Nat) (value : Bool) : JsBitmap :=
  if x < b.width ∧ y < b.height then
    { b with px := fun a c => if a = x ∧ c = y then value else b.px a c }
  else b

/-- Modelled from the spec: `getPixel` of the missing `Bitmap.js` — the
stored bit in bounds, 0 (false) outside. -/
def getPixel (b : JsBitmap) (x y : Nat) : Bool :=
  if x < b.width ∧ y < b.height then b.px x y else false

/-- Modelled from the spec: `vlin` of the missing `Bitmap.js` — sets every
pixel of column x from row y1 to row y2 inclusive (a no-op when y2 < y1),
clipped to the bitmap bounds like `setPixel`. -/
def vlin (b : JsBitmap) (x y1 y2 : Nat) : JsBitmap :=
  { b with
    px := fun a c =>
      if a = x ∧ y1 ≤ c ∧ c ≤ y2 ∧ a < b.width ∧ c < b.height then true
      else b.px a c }

/-- Modelled from the spec: `drawChar5x8` of the missing `Bitmap.js` —
copies the 5x8 glyph cell for the character into the bitmap at (x, y),
clipped to the bitmap bounds like `setPixel`. -/
def drawChar5x8 (font : Font) (b : JsBitmap) (x y : Nat) (c : Char) : JsBitmap :=
  { b with
    px := fun a d =>
      if x ≤ a ∧ a < x + 5 ∧ y ≤ d ∧ d < y + 8 ∧ a < b.width ∧ d < b.height then
        font c (d - y) (a - x)
      else b.px a d }

/-- Modelled from the spec: `copyRect` of the missing `Bitmap.js` — copies a
width x height rectangle from the source at (srcX, srcY) to the destination
at (destX, destY); out-of-bounds source pixels read as 0 via `getPixel`,
out-of-bounds destination writes are dropped via `setPixel`. -/
def copyRect (dest : JsBitmap) (destX destY : Nat) (src : JsBitmap)
    (srcX srcY rw rh : Nat) : JsBitmap :=
  { dest with
    px := fun a d =>
      if destX ≤ a ∧ a < destX + rw ∧ destY ≤ d ∧ d < destY + rh
          ∧ a < dest.width ∧ d < dest.height then
        getPixel src (srcX + (a - destX)) (srcY + (d - destY))
      else dest.px a d }

/-- `#drawDigitChar` from BarcodeBitmap.js: draws the character, with `'0'`
substituted for any non-digit character. -/
def drawDigitChar (font : Font) (b : JsBitmap) (x y : Nat) (c : Char) : JsBitmap :=
  drawChar5x8 font b x y (if '0' ≤ c ∧ c ≤ '9' then c else '0')

/-- The three bar sets of `#drawUpcEanDigit`. -/
inductive BarSet where
  | leftA
  | leftB
  | right
deriving DecidableEq

/-- `#drawUpcEanDigit` from BarcodeBitmap.js: looks up the 7-bit pattern of
the digit in the selected table and draws a 1-pixel vertical bar for each set
bit, most significant bit first (the loop runs i from 6 down to 0, drawing
bit i at column x + (6 - i)). -/
def drawUpcEanDigit (b : JsBitmap) (x y1 y2 : Nat) (n : Char) (barSet : BarSet) :
    JsBitmap :=
  let digit := charToDigit n
  let bits :=
    match barSet with
    | BarSet.leftA => upcLeftA.getD digit 0
    | BarSet.leftB => upcLeftB.getD digit 0
    | BarSet.right => upcRight.getD digit 0
  (List.range 7).foldl
    (fun acc k => if bits.testBit (6 - k) then vlin acc (x + k) y1 y2 else acc) b

/-- `#drawUpcABars` from BarcodeBitmap.js: header guard at x and x+2, center
marker at x+46 and x+48, trailer at x+92 and x+94 (all drawn to guardY2),
then six left digits at x+3+7i (the first to guard depth) and six right
digits at x+50+7i (the last to guard depth). -/
def drawUpcABars (b : JsBitmap) (digits : List Char) (x y1 barY2 guardY2 : Nat) :
    JsBitmap :=
  let b := vlin b x y1 guardY2
  let b := vlin b (x + 2) y1 guardY2
  let b := vlin b (x + 46) y1 guardY2
  let b := vlin b (x + 48) y1 guardY2
  let b := vlin b (x + 92) y1 guardY2
  let b := vlin b (x + 94) y1 guardY2
  (List.range 6).foldl
    (fun acc i =>
      let acc := drawUpcEanDigit acc (x + 3 + i * 7) y1
        (if i = 0 then guardY2 else barY2) (digits.getD i '0') BarSet.leftA
      drawUpcEanDigit acc (x + 50 + i * 7) y1
        (if i = 5 then guardY2 else barY2) (digits.getD (i + 6) '0') BarSet.right)
    b

/-- `#drawUpcEBars` from BarcodeBitmap.js: the parity pattern is the
`#upcELastDigit` entry of the check digit, bit-complemented (`~` in the
source; only bits 0..5 are consulted, so xor with 63 is the same test) when
the leading digit is not `'0'`; header guard at x and x+2, trailer at x+46,
x+48 and x+50; six digits at x+3+7i using leftB where the parity bit 5-i is
set. -/
def drawUpcEBars (b : JsBitmap) (digits : List Char) (x y1 barY2 guardY2 : Nat) :
    JsBitmap :=
  let parityRaw := upcELastDigit.getD (charToDigit (digits.getD 7 '0')) 0
  let parityPattern := if digits.getD 0 ' ' = '0' then parityRaw else parityRaw ^^^ 63
  let b := vlin b x y1 guardY2
  let b := vlin b (x + 2) y1 guardY2
  let b := vlin b (x + 46) y1 guardY2
  let b := vlin b (x + 48) y1 guardY2
  let b := vlin b (x + 50) y1 guardY2
  (List.range 6).foldl
    (fun acc i =>
      drawUpcEanDigit acc (x + 3 + i * 7) y1 barY2 (digits.getD (i + 1) '0')
        (if parityPattern.testBit (5 - i) then BarSet.leftB else BarSet.leftA))
    b

/-- `#drawEan13Bars` from BarcodeBitmap.js. -/
def drawEan13Bars (b : JsBitmap) (digits : List Char) (x y1 barY2 guardY2 : Nat) :
    JsBitmap :=
  let leftPattern := ean13FirstDigit.getD (charToDigit (digits.getD 0 '0')) 0
  let b := vlin b x y1 guardY2
  let b := vlin b (x + 2) y1 guardY2
  let b := vlin b (x + 46) y1 guardY2
  let b := vlin b (x + 48) y1 guardY2
  let b := vlin b (x + 92) y1 guardY2
  let b := vlin b (x + 94) y1 guardY2
  (List.range 6).foldl
    (fun acc i =>
      let acc := drawUpcEanDigit acc (x + 3 + i * 7) y1 barY2 (digits.getD (i + 1) '0')
        (if leftPattern.testBit (5 - i) then BarSet.leftB else BarSet.leftA)
      drawUpcEanDigit acc (x + 50 + i * 7) y1 barY2 (digits.getD (i + 7) '0')
        BarSet.right)
    b

/-- `#drawEan8Bars` from BarcodeBitmap.js. -/
def drawEan8Bars (b : JsBitmap) (digits : List Char) (x y1 barY2 guardY2 : Nat) :
    JsBitmap :=
  let b := vlin b x y1 guardY2
  let b := vlin b (x + 2) y1 guardY2
  let b := vlin b (x + 32) y1 guardY2
  let b := vlin b (x + 34) y1 guardY2
  let b := vlin b (x + 64) y1 guardY2
  let b := vlin b (x + 66) y1 guardY2
  (List.range 4).foldl
    (fun acc i =>
      let acc := drawUpcEanDigit acc (x + 3 + i * 7) y1 barY2 (digits.getD i '0')
        BarSet.leftA
      drawUpcEanDigit acc (x + 36 + i * 7) y1 barY2 (digits.getD (i + 4) '0')
        BarSet.right)
    b

/-- `#makeUpcAFull` from BarcodeBitmap.js: a 107x(60+y) bitmap (plus any
extra width beyond 6), UPC-A bars drawn at x offset 6 with bar depth
height-10 and guard depth height-4, then the human-readable digits. -/
def makeUpcAFull (font : Font) (digits : List Char) (y extraWidth : Nat) : JsBitmap :=
  let height := 60 + y
  let bc := JsBitmap.make (107 + (if extraWidth ≤ 6 then 0 else extraWidth - 6)) height
  let bc := drawUpcABars bc digits 6 y (height - 10) (height - 4)
  let bc := drawDigitChar font bc 0 (height - 14) (digits.getD 0 '0')
  let bc := (List.range 5).foldl
    (fun acc i =>
      let acc := drawDigitChar font acc (18 + i * 7) (height - 7) (digits.getD (i + 1) '0')
      drawDigitChar font acc (57 + i * 7) (height - 7) (digits.getD (i + 6) '0'))
    bc
  drawDigitChar font bc 103 (height - 14) (digits.getD 11 '0')

/-- `#makeUpcAShort` from BarcodeBitmap.js. -/
def makeUpcAShort (font : Font) (digits : List Char) (y extraWidth : Nat) : JsBitmap :=
  let height := 40 + y
  let bc := JsBitmap.make (95 + extraWidth) height
  let bc := drawUpcABars bc digits 0 y (height - 9) (height - 9)
  (List.range 12).foldl
    (fun acc i => drawDigitChar font acc (13 + i * 6) (height - 7) (digits.getD i '0'))
    bc

/-- `#makeUpcEFull` from BarcodeBitmap.js. -/
def makeUpcEFull (font : Font) (digits : List Char) (y extraWidth : Nat) : JsBitmap :=
  let height := 60 + y
  let bc := JsBitmap.make (63 + (if extraWidth ≤ 6 then 0 else extraWidth - 6)) height
  let bc := drawUpcEBars bc digits 6 y (height - 10) (height - 4)
  let bc := drawDigitChar font bc 0 (height - 14) (digits.getD 0 '0')
  let bc := (List.range 6).foldl
    (fun acc i => drawDigitChar font acc (11 + i * 7) (height - 7) (digits.getD (i + 1) '0'))
    bc
  drawDigitChar font bc 59 (height - 14) (digits.getD 7 '0')

/-- `#makeUpcEShort` from BarcodeBitmap.js. -/
def makeUpcEShort (font : Font) (digits : List Char) (y extraWidth : Nat) : JsBitmap :=
  let height := 40 + y
  let bc := JsBitmap.make (51 + extraWidth) height
  let bc := drawUpcEBars bc digits 0 y (height - 9) (height - 9)
  (List.range 8).foldl
    (fun acc i => drawDigitChar font acc (2 + i * 6) (height - 7) (digits.getD i '0'))
    bc

/-- `#makeEan13Full` from BarcodeBitmap.js. -/
def makeEan13Full (font : Font) (digits : List Char) (y extraWidth : Nat) : JsBitmap :=
  let height := 60 + y
  let bc := JsBitmap.make (101 + extraWidth) height
  let bc := drawEan13Bars bc digits 6 y (height - 10) (height - 4)
  let bc := drawDigitChar font bc 0 (height - 7) (digits.getD 0 '0')
  (List.range 6).foldl
    (fun acc i =>
      let acc := drawDigitChar font acc (11 + i * 7) (height - 7) (digits.getD (i + 1) '0')
      drawDigitChar font acc (57 + i * 7) (height - 7) (digits.getD (i + 7) '0'))
    bc

/-- `#makeEan13Short` from BarcodeBitmap.js. -/
def makeEan13Short (font : Font) (digits : List Char) (y extraWidth : Nat) : JsBitmap :=
  let height := 40 + y
  let bc := JsBitmap.make (95 + extraWidth) height
  let bc := drawEan13Bars bc digits 0 y (height - 9) (height - 9)
  (List.range 13).foldl
    (fun acc i => drawDigitChar font acc (9 + i * 6) (height - 7) (digits.getD i '0'))
    bc

/-- `#makeEan8Full` from BarcodeBitmap.js. -/
def makeEan8Full (font : Font) (digits : List Char) (y extraWidth : Nat) : JsBitmap :=
  let height := 60 + y
  let bc := JsBitmap.make (67 + extraWidth) height
  let bc := drawEan8Bars bc digits 0 y (height - 10) (height - 4)
  (List.range 4).foldl
    (fun acc i =>
      let acc := drawDigitChar font acc (5 + i * 7) (height - 7) (digits.getD i '0')
      drawDigitChar font acc (37 + i * 7) (height - 7) (digits.getD (i + 4) '0'))
    bc

/-- `#makeEan8Short` from BarcodeBitmap.js. -/
def makeEan8Short (font : Font) (digits : List Char) (y extraWidth : Nat) : JsBitmap :=
  let height := 40 + y
  let bc := JsBitmap.make (67 + extraWidth) height
  let bc := drawEan8Bars bc digits 0 y (height - 9) (height - 9)
  (List.range 8).foldl
    (fun acc i => drawDigitChar font acc (10 + i * 6) (height - 7) (digits.getD i '0'))
    bc

/-- `makeUpcA` from BarcodeBitmap.js: validate and complete the digits (see
`upcACompleteDigits`), then draw the full- or short-height form. -/
def makeUpcA (font : Font) (digits : List Char) (shortHeight : Bool)
    (y extraWidth : Nat) : Except String JsBitmap := do
  let ds ← upcACompleteDigits digits
  pure (if shortHeight then makeUpcAShort font ds y extraWidth
        else makeUpcAFull font ds y extraWidth)

/-- `makeUpcE` from BarcodeBitmap.js: validate against the UPC-E gate regex
(throwing on failure); normalize 7- and 8-character inputs to the compressed
form, compressing 12-character inputs via `#compressToUpcEDigits` (which can
itself throw); when position 7 is `?`, expand and copy back the computed
check digit; then draw.  The gate restricts lengths to 7, 8 or 12, so the
fall-through arm of the length switch is unreachable. -/
def makeUpcE (font : Font) (digits : List Char) (shortHeight : Bool)
    (y extraWidth : Nat) : Except String JsBitmap := do
  if ¬ upcEGateValid digits then
    throw "UPC-E must be 7 digits, 8 digits starting with 0 or 1, or a compressible 12."
  let compressed ←
    match digits.length with
    | 7 => pure ('0' :: digits)
    | 8 => pure digits
    | 12 => compressToUpcEDigits digits
    | _ => throw "unreachable: the gate regex admits only lengths 7, 8 and 12"
  let compressed ←
    if compressed.getD 7 ' ' = '?' then do
      let expanded ← expandToUpcADigits compressed
      pure (compressed.take 7 ++ [expanded.getD 11 '0'])
    else
      pure compressed
  pure (if shortHeight then makeUpcEShort font compressed y extraWidth
        else makeUpcEFull font compressed y extraWidth)

/-- `makeEan13` from BarcodeBitmap.js: returns `null` (here `none`) when the
gate regex fails, else completes the digits and draws. -/
def makeEan13 (font : Font) (digits : List Char) (shortHeight : Bool)
    (y extraWidth : Nat) : Option JsBitmap := do
  let ds ← ean13CompleteDigits digits
  pure (if shortHeight then makeEan13Short font ds y extraWidth
        else makeEan13Full font ds y extraWidth)

/-- `makeEan8` from BarcodeBitmap.js: returns `null` (here `none`) when the
gate regex fails, else completes the digits and draws. -/
def makeEan8 (font : Font) (digits : List Char) (shortHeight : Bool)
    (y extraWidth : Nat) : Option JsBitmap := do
  let ds ← ean8CompleteDigits digits
  pure (if shortHeight then makeEan8Short font ds y extraWidth
        else makeEan8Full font ds y extraWidth)

/-- The JavaScript `??` (nullish coalescing) applied to two expressions in a
language with exceptions: if the first throws, the error propagates and the
second is never evaluated; if it yields `null`, the second is evaluated; if
it yields a value, that value is the result. -/
def jsNullCoalesce (a b : Except String (Option JsBitmap)) :
    Except String (Option JsBitmap) :=
  match a with
  | Except.error e => Except.error e
  | Except.ok none => b
  | Except.ok (some v) => Except.ok (some v)

/-- `makeBarcode` from BarcodeBitmap.js: dispatch on the format string; in
`dwim` mode dispatch on the digit count (7 and 8 to UPC-E — with the EAN-8
arm behind `??` — 12 to UPC-A, 13 to EAN-13); a `null` result becomes the
"Invalid format / digits" error.  (The source's unknown-format arm throws by
interpolating an undefined variable `form`; the throw itself is modelled.) -/
def makeBarcode (font : Font) (format : String) (digits : List Char)
    (shortHeight : Bool) : Except String JsBitmap := do
  let result : Option JsBitmap ←
    match format with
    | "upcA" => (makeUpcA font digits shortHeight 0 0).map some
    | "upcE" => (makeUpcE font digits shortHeight 0 0).map some
    | "ean13" => pure (makeEan13 font digits shortHeight 0 0)
    | "ean8" => pure (makeEan8 font digits shortHeight 0 0)
    | "dwim" =>
      match digits.length with
      | 7 => (makeUpcE font digits shortHeight 0 0).map some
      | 8 => jsNullCoalesce ((makeUpcE font digits shortHeight 0 0).map some)
               (pure (makeEan8 font digits shortHeight 0 0))
      | 12 => (makeUpcA font digits shortHeight 0 0).map some
      | 13 => pure (makeEan13 font digits shortHeight 0 0)
      | _ => pure none
    | other => throw ("Unknown format: " ++ other)
  match result with
  | none => throw ("Invalid format / digits: " ++ format ++ ", " ++ String.mk digits)
  | some bm => pure bm

/-- An all-blank font, used to instantiate font-generic theorems. -/
def font0 : Font := fun _ _ _ => false

/-- `Text.measureText` from Text.js: scans the string counting the longest
line and the number of lines; the result is width `maxLineLength * 5 - 1`
(an `Int`, since JavaScript yields -1 for the empty string) and height
`lineCount * 8`. -/
def measureText (s : List Char) : Int × Int :=
  let t := s.foldl
    (fun (t : Nat × Nat × Nat) c =>
      if c = '\n' then (max t.1 t.2.1, 0, t.2.2 + 1) else (t.1, t.2.1 + 1, t.2.2))
    (0, 0, 1)
  ((max t.1 t.2.1 : Int) * 5 - 1, (t.2.2 : Int) * 8)

/-- The width-selection step of `Barcode.#renderTitleBitmap` (Barcode.js):
the title bitmap is rendered at width `codeWidth` when
`codeWidth >= textWidth`, and otherwise at `Math.trunc(codeWidth * 1.33)`.
For every width that can arise here (far below 2^50) the double-precision
product truncates to exactly `codeWidth * 133 / 100`, which is how the 1.33
factor is embedded. -/
def titleRenderWidth (codeWidth textWidth : Int) : Int :=
  if textWidth ≤ codeWidth then codeWidth else codeWidth * 133 / 100

/-- The title branch of `Barcode.render` (Barcode.js): the final width is
the larger of the code bitmap's and the title bitmap's widths, the height
stacks title, a 1-pixel gap, and code; the title is blitted at
x = (W - titleWidth) / 2, y = 0 and the code at x = (W - codeWidth) / 2,
y = titleHeight + 1, both via `copyRect`. -/
def composeWithTitle (title code : JsBitmap) : JsBitmap :=
  let newWidth := max code.width title.width
  let newHeight := title.height + 1 + code.height
  let result := JsBitmap.make newWidth newHeight
  let result := copyRect result ((newWidth - title.width) / 2) 0
    title 0 0 title.width title.height
  copyRect result ((newWidth - code.width) / 2) (title.height + 1)
    code 0 0 code.width code.height

end BarcodeJs

/-!  Claim-side formulas, written from the claims' wording (for comparison
against the embedded source functions). -/

/-- The UPC-A weighted sum as the claims state it: over the 11 digits, weight
3 at 0-indexed positions 0, 2, 4, ... and weight 1 at the remaining
positions. -/
def claimUpcAWeightedSum (ds : List Char) : Nat :=
  ((List.range 11).map
    (fun i => (if i % 2 = 0 then 3 else 1) * BarcodeJs.charToDigit (ds.getD i '0'))).sum

/-- The EAN-13 weighted sum as claim C3 states it: over the first 12 digits,
weight 1 at odd 0-indexed positions and weight 3 at even 0-indexed
positions. -/
def claimEan13WeightedSum (ds : List Char) : Nat :=
  ((List.range 12).map
    (fun i => (if i % 2 = 0 then 3 else 1) * BarcodeJs.charToDigit (ds.getD i '0'))).sum

/-- The EAN-13 weighted sum with the weights the code actually uses: weight 1
at even 0-indexed positions and weight 3 at odd ones. -/
def amendedEan13WeightedSum (ds : List Char) : Nat :=
  ((List.range 12).map
    (fun i => (if i % 2 = 0 then 1 else 3) * BarcodeJs.charToDigit (ds.getD i '0'))).sum

/-!  Bridging lemmas between the source checksum loops and the closed-form
weighted sums. -/

/-- The `mul ^= 2` loop of `makeUpcA` computes the weight-3-even weighted
sum. -/
theorem upcACheckDigit_eq_claim (ds : List Char) :
    BarcodeJs.upcACheckDigit ds = (10 - claimUpcAWeightedSum ds % 10) % 10 := by
  simp only [BarcodeJs.upcACheckDigit, claimUpcAWeightedSum, List.range_succ,
    List.range_zero, List.foldl_append, List.foldl_cons, List.foldl_nil,
    List.map_append, List.map_cons, List.map_nil, List.sum_append,
    List.sum_cons, List.sum_nil]
  simp
  omega

/-- The `mul ^= 2` loop of `makeEan13` computes the weight-1-even weighted
sum. -/
theorem ean13CheckDigit_eq_amended (ds : List Char) :
    BarcodeJs.ean13CheckDigit ds = (10 - amendedEan13WeightedSum ds % 10) % 10 := by
  simp only [BarcodeJs.ean13CheckDigit, amendedEan13WeightedSum, List.range_succ,
    List.range_zero, List.foldl_append, List.foldl_cons, List.foldl_nil,
    List.map_append, List.map_cons, List.map_nil, List.sum_append,
    List.sum_cons, List.sum_nil]
  simp
  omega

/-- The UPC-A checksum loop only reads the first 11 characters, so a trailing
character does not affect it. -/
theorem upcACheckDigit_append (ds : List Char) (hlen : ds.length = 11) (c : Char) :
    BarcodeJs.upcACheckDigit (ds ++ [c]) = BarcodeJs.upcACheckDigit ds := by
  simp only [BarcodeJs.upcACheckDigit, List.range_succ, List.range_zero,
    List.foldl_append, List.foldl_cons, List.foldl_nil]
  simp [List.getD_eq_getElem?_getD, List.getElem?_append, hlen,
    List.getElem_append_left]

/-- The EAN-13 checksum loop only reads the first 12 characters. -/
theorem ean13CheckDigit_append (ds : List Char) (hlen : ds.length = 12) (c : Char) :
    BarcodeJs.ean13CheckDigit (ds ++ [c]) = BarcodeJs.ean13CheckDigit ds := by
  simp only [BarcodeJs.ean13CheckDigit, List.range_succ, List.range_zero,
    List.foldl_append, List.foldl_cons, List.foldl_nil]
  simp [List.getD_eq_getElem?_getD, List.getElem?_append, hlen,
    List.getElem_append_left]

/-- C1 counterexample: the claim's worked example is wrong.  Rendering the
spec's example input replaces the `?` with check digit 9, not 7: the engine
completes `63447948954?` to `634479489549`. -/
theorem upcA_example_check_digit_cex :
    BarcodeJs.upcACompleteDigits ("63447948954?".toList)
        = Except.ok ("634479489549".toList)
    ∧ ("634479489549".toList).getD 11 ' ' ≠ '7' := by
  exact ⟨by rfl, by decide⟩

/-- C1 (amended): for every 11-digit string d, rendering format upcA with
main digits d + `?` replaces the `?` with the check digit
(10 - (sum mod 10)) mod 10, where sum weights the digits at 0-indexed
positions 0, 2, 4, ... by 3 and the remaining positions by 1; the spec's
example input `63447948954?` yields check digit 9 (not 7). -/
theorem upcA_checksum_formula (ds : List Char) (hlen : ds.length = 11)
    (hdig : ∀ c ∈ ds, '0' ≤ c ∧ c ≤ '9') :
    BarcodeJs.upcACompleteDigits (ds ++ ['?'])
      = Except.ok (ds ++ [BarcodeJs.digitToChar
          ((10 - claimUpcAWeightedSum ds % 10) % 10)]) := by
  have htake : (ds ++ ['?']).take 11 = ds := by
    rw [show (11 : Nat) = ds.length from hlen.symm]
    exact List.take_left ds _
  have hgetlast : (ds ++ ['?']).getD 11 ' ' = '?' := by
    simp [List.getD_eq_getElem?_getD, List.getElem?_append, hlen]
  have hall : ds.all BarcodeJs.isDigitChar = true := by
    rw [List.all_eq_true]
    intro x hx
    simp [BarcodeJs.isDigitChar]
    exact hdig x hx
  have hgate : BarcodeJs.upcAGateValid (ds ++ ['?']) = true := by
    simp [BarcodeJs.upcAGateValid, hlen, htake, hgetlast, hall]
  rw [BarcodeJs.upcACompleteDigits, if_neg (by simp [hgate]), if_pos hgetlast,
    htake, upcACheckDigit_append ds hlen, upcACheckDigit_eq_claim]

/-- C1 witness: the amended formula applied to the spec's example prefix. -/
theorem upcA_checksum_formula_w :
    BarcodeJs.upcACompleteDigits ("63447948954".toList ++ ['?'])
      = Except.ok ("63447948954".toList ++ [BarcodeJs.digitToChar
          ((10 - claimUpcAWeightedSum ("63447948954".toList) % 10) % 10)]) :=
  upcA_checksum_formula ("63447948954".toList) (by decide) (by decide)

/-- C3 counterexample: for the 12-digit prefix `100000000000` the engine
computes check digit 9 (weight 1 at position 0), but the claim's formula
(weight 3 at even 0-indexed positions, weight 1 at odd ones) predicts
(10 - ((3 * 1) mod 10)) mod 10 = 7. -/
theorem ean13_weights_cex :
    BarcodeJs.ean13CompleteDigits ("100000000000?".toList)
        = some ("1000000000009".toList)
    ∧ (10 - claimEan13WeightedSum ("100000000000".toList) % 10) % 10 = 7
    ∧ ("1000000000009".toList).getD 12 ' ' ≠ '7' := by
  decide

/-- C3 (amended): rendering format ean13 with 12 digits d plus a final
character replaces a final `?` with (10 - (sum mod 10)) mod 10 where sum,
over the 12 digits, uses weight 1 on even 0-indexed positions and weight 3
on odd ones (the transpose of the claim's weights); a final digit is used
as-is without verification. -/
theorem ean13_checksum_formula (ds : List Char) (hlen : ds.length = 12)
    (hdig : ∀ c ∈ ds, '0' ≤ c ∧ c ≤ '9') (last : Char)
    (hlast : last = '?' ∨ ('0' ≤ last ∧ last ≤ '9')) :
    BarcodeJs.ean13CompleteDigits (ds ++ [last])
      = some (ds ++ [if last = '?' then
          BarcodeJs.digitToChar ((10 - amendedEan13WeightedSum ds % 10) % 10)
          else last]) := by
  have htake : (ds ++ [last]).take 12 = ds := by
    rw [show (12 : Nat) = ds.length from hlen.symm]
    exact List.take_left ds _
  have hgetlast : (ds ++ [last]).getD 12 ' ' = last := by
    simp [List.getD_eq_getElem?_getD, List.getElem?_append, hlen]
  have hall : ds.all BarcodeJs.isDigitChar = true := by
    rw [List.all_eq_true]
    intro x hx
    simp [BarcodeJs.isDigitChar]
    exact hdig x hx
  have hlastOk : (BarcodeJs.isDigitChar last || last = '?') = true := by
    rcases hlast with h | h
    · simp [h]
    · simp [BarcodeJs.isDigitChar, h]
  have hgate : BarcodeJs.ean13GateValid (ds ++ [last]) = true := by
    rcases hlast with h | h
    · simp [BarcodeJs.ean13GateValid, hlen, htake, hgetlast, hall, h]
    · simp [BarcodeJs.ean13GateValid, hlen, htake, hgetlast, hall,
        BarcodeJs.isDigitChar, h]
  rw [BarcodeJs.ean13CompleteDigits, if_neg (by simp [hgate])]
  by_cases hq : last = '?'
  · rw [if_pos (by rw [hgetlast]; exact hq), htake,
      ean13CheckDigit_append ds hlen, ean13CheckDigit_eq_amended, if_pos hq]
  · rw [if_neg (by rw [hgetlast]; exact hq), if_neg hq]

/-- C3 witness: the amended formula applied at a concrete prefix with `?`
and at a concrete caller-supplied (unverified) check digit. -/
theorem ean13_checksum_formula_w :
    BarcodeJs.ean13CompleteDigits ("100000000000".toList ++ ['?'])
        = some ("100000000000".toList ++ [BarcodeJs.digitToChar
            ((10 - amendedEan13WeightedSum ("100000000000".toList) % 10) % 10)])
    ∧ BarcodeJs.ean13CompleteDigits ("100000000000".toList ++ ['3'])
        = some ("100000000000".toList ++ ['3']) := by
  constructor
  · exact ean13_checksum_formula ("100000000000".toList) (by decide) (by decide)
      '?' (Or.inl rfl)
  · have h := ean13_checksum_formula ("100000000000".toList) (by decide) (by decide)
      '3' (Or.inr (by decide))
    simpa using h

/-- C6 counterexample: at digit 0 the Right pattern (0x72) is not the 7-bit
reversal of the complement of the Left-A pattern (that reversal is 0x27). -/
theorem upcRight_rev7_compl7_cex :
    BarcodeJs.upcRight.getD 0 0
      ≠ BarcodeJs.rev7 (BarcodeJs.compl7 (BarcodeJs.upcLeftA.getD 0 0)) := by
  decide

/-- C6 (amended): for every digit 0-9 the Right pattern-table entry equals
the Left-A entry bitwise-complemented across its 7 bits, with no bit
reversal. -/
theorem upcRight_eq_compl7_upcLeftA :
    ∀ d : Fin 10,
      BarcodeJs.upcRight.getD d 0 = BarcodeJs.compl7 (BarcodeJs.upcLeftA.getD d 0) := by
  decide

/-- C7 counterexample: on a 5-wide, 1-tall bitmap whose malloc residue is all
ones, the read at (5, 0) lies outside [0, width) yet returns 1, because
`bitmapGet` only range-checks the byte coordinate and x = 5 still falls in
the row's padded byte. -/
theorem bitmapGet_padding_bit_cex :
    (BarcodeC.makeBitmap 5 1 BarcodeC.memFF).width ≤ 5
    ∧ BarcodeC.bitmapGet (BarcodeC.makeBitmap 5 1 BarcodeC.memFF) 5 0 = 1 := by
  decide

/-- C7 (amended): for arbitrary integer coordinates, a read with y outside
[0, height) or x outside [0, 8 * widthBytes) returns 0 (reads between width
and 8 * widthBytes within a valid row return the stored padding bit instead);
every read returns a 1-bit value; and a write outside
[0, width) x [0, height) leaves the bitmap completely unchanged.  None of
these operations faults. -/
theorem bitmap_bounds_safety :
    (∀ (b : BarcodeC.Bitmap) (x y : Int),
        y < 0 ∨ b.height ≤ y ∨ x < 0 ∨ 8 * b.widthBytes ≤ x →
        BarcodeC.bitmapGet b x y = 0)
    ∧ (∀ (b : BarcodeC.Bitmap) (x y : Int),
        BarcodeC.bitmapGet b x y = 0 ∨ BarcodeC.bitmapGet b x y = 1)
    ∧ (∀ (b : BarcodeC.Bitmap) (x y : Int) (v : Nat),
        x < 0 ∨ b.width ≤ x ∨ y < 0 ∨ b.height ≤ y →
        BarcodeC.bitmapSet b x y v = b) := by
  refine ⟨?_, ?_, ?_⟩
  · intro b x y h
    have hcond : x / 8 < 0 ∨ b.widthBytes ≤ x / 8 ∨ y < 0 ∨ b.height ≤ y := by
      omega
    simp only [BarcodeC.bitmapGet, BarcodeC.bitmapGetByte, if_pos hcond]
    simp
  · intro b x y
    simp only [BarcodeC.bitmapGet, Nat.one_shiftLeft, Nat.and_two_pow,
      Nat.shiftRight_eq_div_pow]
    rw [Nat.mul_div_cancel _ (Nat.pos_pow_of_pos _ (by norm_num))]
    rcases (BarcodeC.bitmapGetByte b (x / 8) y).testBit (x % 8).toNat
    · exact Or.inl rfl
    · exact Or.inr rfl
  · intro b x y v h
    rw [BarcodeC.bitmapSet, if_pos h]

/-- C7 witness: the amended bounds properties at concrete coordinates. -/
theorem bitmap_bounds_safety_w :
    BarcodeC.bitmapGet (BarcodeC.makeBitmap 3 2 BarcodeC.memFF) (-1) 0 = 0
    ∧ (BarcodeC.bitmapGet (BarcodeC.makeBitmap 3 2 BarcodeC.memFF) 0 0 = 0
        ∨ BarcodeC.bitmapGet (BarcodeC.makeBitmap 3 2 BarcodeC.memFF) 0 0 = 1)
    ∧ BarcodeC.bitmapSet (BarcodeC.makeBitmap 3 2 BarcodeC.memFF) 7 0 1
        = BarcodeC.makeBitmap 3 2 BarcodeC.memFF :=
  ⟨bitmap_bounds_safety.1 _ (-1) 0 (by decide),
   bitmap_bounds_safety.2.1 _ 0 0,
   bitmap_bounds_safety.2.2 _ 7 0 1 (by decide)⟩

/-- C9: `makeBitmap` in barcode.c does not zero-fill (a pixel of a fresh
2 x 2 bitmap whose malloc residue is all ones reads 1, not 0) and performs no
dimension validation (negative dimensions are stored as-is with no
InvalidDimension error; the function has no failure path). -/
theorem makeBitmap_no_clear_no_validation :
    BarcodeC.bitmapGet (BarcodeC.makeBitmap 2 2 BarcodeC.memFF) 0 0 = 1
    ∧ (BarcodeC.makeBitmap (-4) 7 BarcodeC.memFF).width = -4
    ∧ (BarcodeC.makeBitmap (-4) 7 BarcodeC.memFF).height = 7 := by
  decide

/-- C2: for every 12-digit string beginning with 0 or 1 that
`#compressToUpcEDigits` accepts, `#expandToUpcADigits` of the compressed
form succeeds and reproduces the original on the 11 significant digit
positions 0-10 (the trailing check digit is carried or recomputed, not
compared). -/
theorem upcE_compress_expand_roundtrip
    (e : List Char) (hlen : e.length = 12)
    (hdig : ∀ ch ∈ e, '0' ≤ ch ∧ ch ≤ '9')
    (hlead : e.getD 0 ' ' = '0' ∨ e.getD 0 ' ' = '1')
    (c : List Char) (hc : BarcodeJs.compressToUpcEDigits e = Except.ok c) :
    ∃ x, BarcodeJs.expandToUpcADigits c = Except.ok x ∧ x.take 11 = e.take 11 := by
  rcases e with _ | ⟨a0, e⟩; · simp at hlen
  rcases e with _ | ⟨a1, e⟩; · simp at hlen
  rcases e with _ | ⟨a2, e⟩; · simp at hlen
  rcases e with _ | ⟨a3, e⟩; · simp at hlen
  rcases e with _ | ⟨a4, e⟩; · simp at hlen
  rcases e with _ | ⟨a5, e⟩; · simp at hlen
  rcases e with _ | ⟨a6, e⟩; · simp at hlen
  rcases e with _ | ⟨a7, e⟩; · simp at hlen
  rcases e with _ | ⟨a8, e⟩; · simp at hlen
  rcases e with _ | ⟨a9, e⟩; · simp at hlen
  rcases e with _ | ⟨a10, e⟩; · simp at hlen
  rcases e with _ | ⟨a11, e⟩; · simp at hlen
  rcases e with _ | ⟨a12, e⟩
  swap
  · simp at hlen
  have h11 : a11 ≠ '?' := by
    intro hq
    subst hq
    have := hdig '?' (by simp)
    revert this
    decide
  simp only [BarcodeJs.compressToUpcEDigits, List.getD_cons_zero,
    List.getD_cons_succ] at hc
  split_ifs at hc with h1 h2 h3 h4 h5 h6 h7 h8
  · -- template with explicit positions 0-5 (compressed[6] = expanded[10] >= '5')
    injection hc with hc
    subst hc
    push_neg at h3
    obtain ⟨h6e, h7e, h8e, h9e, h10e⟩ := h3
    subst h6e h7e h8e h9e
    simp only [BarcodeJs.expandToUpcADigits, List.getD_cons_zero, List.getD_cons_succ]
    rw [if_neg h1, if_neg (by rintro (rfl | rfl | rfl) <;> revert h10e <;> decide),
      if_neg (by rintro rfl; revert h10e; decide),
      if_neg (by rintro rfl; revert h10e; decide), if_neg h11]
    exact ⟨_, rfl, rfl⟩
  · -- template '4'
    injection hc with hc
    subst hc
    push_neg at h2 h5
    obtain ⟨h6e, h7e, h8e, h9e⟩ := h5
    subst h2 h6e h7e h8e h9e
    simp only [BarcodeJs.expandToUpcADigits, List.getD_cons_zero, List.getD_cons_succ]
    rw [if_neg h1, if_neg (by decide), if_neg (by decide), if_pos trivial, if_neg h11]
    exact ⟨_, rfl, rfl⟩
  · -- template '3'
    injection hc with hc
    subst hc
    push_neg at h2 h4 h7
    obtain ⟨h6e, h7e, h8e⟩ := h7
    subst h2 h4 h6e h7e h8e
    simp only [BarcodeJs.expandToUpcADigits, List.getD_cons_zero, List.getD_cons_succ]
    rw [if_neg h1, if_neg (by decide), if_pos trivial, if_neg h11]
    exact ⟨_, rfl, rfl⟩
  · -- template for expanded[3] in 0..2
    injection hc with hc
    subst hc
    push_neg at h2 h4 h8
    obtain ⟨h6e, h7e⟩ := h8
    subst h2 h4 h6e h7e
    have h3or : a3 = '0' ∨ a3 = '1' ∨ a3 = '2' := by
      by_contra hcon
      push_neg at hcon
      exact h6 ⟨hcon.1, hcon.2.1, hcon.2.2⟩
    simp only [BarcodeJs.expandToUpcADigits, List.getD_cons_zero, List.getD_cons_succ]
    rw [if_neg h1, if_pos h3or, if_neg h11]
    exact ⟨_, rfl, rfl⟩

/-- C2 witness: the round trip at the compressible code `012345000058`,
whose compressed form is `01234558`. -/
theorem upcE_compress_expand_roundtrip_w :
    ∃ x, BarcodeJs.expandToUpcADigits ("01234558".toList) = Except.ok x
      ∧ x.take 11 = ("012345000058".toList).take 11 :=
  upcE_compress_expand_roundtrip ("012345000058".toList) (by decide) (by decide)
    (by decide) ("01234558".toList) (by rfl)

/-- C10: the explicit UPC-E path accepts a 12-character input only if it has
four consecutive `'0'` characters: for every 12-character string without the
substring `0000`, `makeUpcE` throws (the gate regex's lookahead fails) and
produces no bitmap, and every branch of `#compressToUpcEDigits` also
rejects. -/
theorem makeUpcE_requires_zero_run
    (font : BarcodeJs.Font) (short : Bool) (s : List Char)
    (hlen : s.length = 12) (h0 : BarcodeJs.hasRun0000 s = false) :
    (∀ b, BarcodeJs.makeUpcE font s short 0 0 ≠ Except.ok b)
    ∧ (∀ c, BarcodeJs.compressToUpcEDigits s ≠ Except.ok c) := by
  constructor
  · intro b
    have hdrop : BarcodeJs.hasRun0000 s.tail = false := by
      cases s with
      | nil => rfl
      | cons a l =>
        simp [BarcodeJs.hasRun0000] at h0 ⊢
        exact h0.2
    have hgate : BarcodeJs.upcEGateValid s = false := by
      simp [BarcodeJs.upcEGateValid, hlen, hdrop]
    simp [BarcodeJs.makeUpcE, hgate, Bind.bind, Except.bind, throw, throwThe,
      MonadExceptOf.throw]
  · rcases s with _ | ⟨a0, s⟩; · simp at hlen
    rcases s with _ | ⟨a1, s⟩; · simp at hlen
    rcases s with _ | ⟨a2, s⟩; · simp at hlen
    rcases s with _ | ⟨a3, s⟩; · simp at hlen
    rcases s with _ | ⟨a4, s⟩; · simp at hlen
    rcases s with _ | ⟨a5, s⟩; · simp at hlen
    rcases s with _ | ⟨a6, s⟩; · simp at hlen
    rcases s with _ | ⟨a7, s⟩; · simp at hlen
    rcases s with _ | ⟨a8, s⟩; · simp at hlen
    rcases s with _ | ⟨a9, s⟩; · simp at hlen
    rcases s with _ | ⟨a10, s⟩; · simp at hlen
    rcases s with _ | ⟨a11, s⟩; · simp at hlen
    rcases s with _ | ⟨a12, s⟩
    swap
    · simp at hlen
    intro c hc
    simp [BarcodeJs.hasRun0000] at h0
    simp only [BarcodeJs.compressToUpcEDigits, List.getD_cons_zero,
      List.getD_cons_succ] at hc
    split_ifs at hc with h1 h2 h3 h4 h5 h6 h7 h8
    · push_neg at h3
      obtain ⟨h6e, h7e, h8e, h9e, h10e⟩ := h3
      subst h6e h7e h8e h9e
      simp at h0
    · push_neg at h2 h5
      obtain ⟨h6e, h7e, h8e, h9e⟩ := h5
      subst h2 h6e h7e h8e h9e
      simp at h0
    · push_neg at h2 h4 h7
      obtain ⟨h6e, h7e, h8e⟩ := h7
      subst h2 h4 h6e h7e h8e
      simp at h0
    · push_neg at h2 h4 h8
      obtain ⟨h6e, h7e⟩ := h8
      subst h2 h4 h6e h7e
      simp at h0

/-- C10 witness: a 12-digit code with no run of four zeros is rejected both
by `makeUpcE` and by the compressor. -/
theorem makeUpcE_requires_zero_run_w :
    (∀ b, BarcodeJs.makeUpcE BarcodeJs.font0 ("123456789012".toList) false 0 0
        ≠ Except.ok b)
    ∧ (∀ c, BarcodeJs.compressToUpcEDigits ("123456789012".toList)
        ≠ Except.ok c) :=
  makeUpcE_requires_zero_run BarcodeJs.font0 false ("123456789012".toList)
    (by decide) (by decide)

/-- C4: in dwim mode the EAN-8 fallback at digit count 8 is dead code.  For
the 8-digit input `22345678` (leading digit not 0 or 1), `makeUpcE` throws
instead of returning null, so the `??` fallback never runs and `makeBarcode`
propagates the UPC-E error — even though `makeEan8` would have accepted the
very same digits.  Length 7 dispatches to UPC-E, 12 to UPC-A and 13 to
EAN-13 as claimed. -/
theorem dwim_length8_fallback_dead (font : BarcodeJs.Font) :
    (∃ msg, BarcodeJs.makeBarcode font "dwim" ("22345678".toList) false
        = Except.error msg)
    ∧ (∃ bm, BarcodeJs.makeEan8 font ("22345678".toList) false 0 0 = some bm) :=
  ⟨⟨_, rfl⟩, ⟨_, rfl⟩⟩

/-- C8 counterexample: with a code 107 wide and a title measuring 4 (title
narrower than code), `#renderTitleBitmap` renders the title at wrap width
107 — the code width — not at the claimed 133 percent of the code width
(142). -/
theorem titleRenderWidth_narrow_cex :
    (4 : Int) < 107 ∧ BarcodeJs.titleRenderWidth 107 4 = 107
    ∧ BarcodeJs.titleRenderWidth 107 4 ≠ 107 * 133 / 100 := by
  decide

/-- C8 (amended): when a title is present the composed image is
max(codeWidth, titleWidth) wide; the title bitmap is rendered word-wrapped to
the code width when the title is no wider than the code, and to 133 percent
of the code width when the title is WIDER than the code (the converse of the
claim); title and code are stacked with a 1-pixel gap, each horizontally
centered independently in the shared final width. -/
theorem title_composition_layout :
    (∀ codeWidth textWidth : Int,
        (textWidth ≤ codeWidth →
          BarcodeJs.titleRenderWidth codeWidth textWidth = codeWidth)
        ∧ (codeWidth < textWidth →
          BarcodeJs.titleRenderWidth codeWidth textWidth = codeWidth * 133 / 100))
    ∧ (∀ t c : BarcodeJs.JsBitmap,
        (BarcodeJs.composeWithTitle t c).width = max c.width t.width
        ∧ (BarcodeJs.composeWithTitle t c).height = t.height + 1 + c.height
        ∧ (∀ x y, x < t.width → y < t.height →
            BarcodeJs.getPixel (BarcodeJs.composeWithTitle t c)
              ((max c.width t.width - t.width) / 2 + x) y
              = BarcodeJs.getPixel t x y)
        ∧ (∀ x y, x < c.width → y < c.height →
            BarcodeJs.getPixel (BarcodeJs.composeWithTitle t c)
              ((max c.width t.width - c.width) / 2 + x) (t.height + 1 + y)
              = BarcodeJs.getPixel c x y)) := by
  constructor
  · intro codeWidth textWidth
    constructor
    · intro h
      simp [BarcodeJs.titleRenderWidth, h]
    · intro h
      rw [BarcodeJs.titleRenderWidth, if_neg (by omega)]
  · intro t c
    refine ⟨rfl, rfl, ?_, ?_⟩
    · intro x y hx hy
      have hWt : t.width ≤ max c.width t.width := le_max_right _ _
      simp only [BarcodeJs.composeWithTitle, BarcodeJs.copyRect,
        BarcodeJs.getPixel, BarcodeJs.JsBitmap.make]
      rw [if_pos (by constructor <;> omega)]
      rw [if_neg (by rintro ⟨h1, h2, h3, h4, h5, h6⟩; omega)]
      rw [if_pos (by refine ⟨?_, ?_, ?_, ?_, ?_, ?_⟩ <;> omega)]
      have e1 : 0 + ((max c.width t.width - t.width) / 2 + x
          - (max c.width t.width - t.width) / 2) = x := by omega
      have e2 : 0 + (y - 0) = y := by omega
      rw [e1, e2]
    · intro x y hx hy
      have hWc : c.width ≤ max c.width t.width := le_max_left _ _
      simp only [BarcodeJs.composeWithTitle, BarcodeJs.copyRect,
        BarcodeJs.getPixel, BarcodeJs.JsBitmap.make]
      rw [if_pos (by constructor <;> omega)]
      rw [if_pos (by refine ⟨?_, ?_, ?_, ?_, ?_, ?_⟩ <;> omega)]
      have e1 : 0 + ((max c.width t.width - c.width) / 2 + x
          - (max c.width t.width - c.width) / 2) = x := by omega
      have e2 : 0 + (t.height + 1 + y - (t.height + 1)) = y := by omega
      rw [e1, e2]

/-- C8 witness: the layout properties at concrete widths and bitmaps. -/
theorem title_composition_layout_w :
    BarcodeJs.titleRenderWidth 107 4 = 107
    ∧ BarcodeJs.titleRenderWidth 50 100 = 50 * 133 / 100
    ∧ BarcodeJs.getPixel
        (BarcodeJs.composeWithTitle (BarcodeJs.JsBitmap.make 3 8)
          (BarcodeJs.JsBitmap.make 10 5))
        ((max 10 3 - 3) / 2 + 1) 2
        = BarcodeJs.getPixel (BarcodeJs.JsBitmap.make 3 8) 1 2
    ∧ BarcodeJs.getPixel
        (BarcodeJs.composeWithTitle (BarcodeJs.JsBitmap.make 3 8)
          (BarcodeJs.JsBitmap.make 10 5))
        ((max 10 3 - 10) / 2 + 4) (8 + 1 + 3)
        = BarcodeJs.getPixel (BarcodeJs.JsBitmap.make 10 5) 4 3 :=
  ⟨(title_composition_layout.1 107 4).1 (by decide),
   (title_composition_layout.1 50 100).2 (by decide),
   (title_composition_layout.2 (BarcodeJs.JsBitmap.make 3 8)
      (BarcodeJs.JsBitmap.make 10 5)).2.2.1 1 2 (by decide) (by decide),
   (title_composition_layout.2 (BarcodeJs.JsBitmap.make 3 8)
      (BarcodeJs.JsBitmap.make 10 5)).2.2.2 4 3 (by decide) (by decide)⟩

/-- C5 counterexample: rendering with format dwim and main digits
`12345665432` (11 characters, as the claim literally states) does not
succeed: no dwim arm handles digit count 11, so `makeBarcode` throws the
invalid-format error and produces no bitmap. -/
theorem dwim_eleven_digit_value_cex :
    BarcodeJs.makeBarcode BarcodeJs.font0 "dwim" ("12345665432".toList) false
      = Except.error "Invalid format / digits: dwim, 12345665432" := by
  rfl

namespace BarcodeJs

theorem drawChar5x8_px_away {font : Font} {b : JsBitmap} {x y : Nat} {c : Char}
    {a d : Nat} (h : a < x ∨ x + 5 ≤ a) :
    (drawChar5x8 font b x y c).px a d = b.px a d := by
  simp only [drawChar5x8]
  split_ifs with hcond
  · exact absurd hcond (by omega)
  · rfl

theorem drawDigitChar_px_away {font : Font} {b : JsBitmap} {x y : Nat} {c : Char}
    {a d : Nat} (h : a < x ∨ x + 5 ≤ a) :
    (drawDigitChar font b x y c).px a d = b.px a d := by
  rw [drawDigitChar, drawChar5x8_px_away h]

theorem makeUpcAFull_px_off_glyphs (font : Font) {ds : List Char} {a d : Nat}
    (h : ∀ gx ∈ ([0, 18, 25, 32, 39, 46, 57, 64, 71, 78, 85, 103] : List Nat),
        a < gx ∨ gx + 5 ≤ a) :
    (makeUpcAFull font ds 0 0).px a d
      = (drawUpcABars (JsBitmap.make 107 60) ds 6 0 50 56).px a d := by
  simp only [makeUpcAFull, List.range_succ, List.range_zero, List.foldl_append,
    List.foldl_cons, List.foldl_nil]
  norm_num
  rw [drawDigitChar_px_away (h 103 (by simp)),
    drawDigitChar_px_away (h 85 (by simp)),
    drawDigitChar_px_away (h 46 (by simp)),
    drawDigitChar_px_away (h 78 (by simp)),
    drawDigitChar_px_away (h 39 (by simp)),
    drawDigitChar_px_away (h 71 (by simp)),
    drawDigitChar_px_away (h 32 (by simp)),
    drawDigitChar_px_away (h 64 (by simp)),
    drawDigitChar_px_away (h 25 (by simp)),
    drawDigitChar_px_away (h 57 (by simp)),
    drawDigitChar_px_away (h 18 (by simp)),
    drawDigitChar_px_away (h 0 (by simp))]

end BarcodeJs

namespace BarcodeJs

theorem upcA_example_bars_guard_cols :
    ∀ y, y ≤ 56 →
      ((drawUpcABars (JsBitmap.make 107 60) ("123456654327".toList) 6 0 50 56).px 6 y
        ∧ (drawUpcABars (JsBitmap.make 107 60) ("123456654327".toList) 6 0 50 56).px 8 y
        ∧ (drawUpcABars (JsBitmap.make 107 60) ("123456654327".toList) 6 0 50 56).px 52 y
        ∧ (drawUpcABars (JsBitmap.make 107 60) ("123456654327".toList) 6 0 50 56).px 54 y
        ∧ (drawUpcABars (JsBitmap.make 107 60) ("123456654327".toList) 6 0 50 56).px 98 y
        ∧ (drawUpcABars (JsBitmap.make 107 60) ("123456654327".toList) 6 0 50 56).px 100 y) := by
  decide

theorem upcA_example_bars_blank_cols :
    ∀ y, y < 60 →
      ((drawUpcABars (JsBitmap.make 107 60) ("123456654327".toList) 6 0 50 56).px 7 y = false
        ∧ (drawUpcABars (JsBitmap.make 107 60) ("123456654327".toList) 6 0 50 56).px 53 y = false
        ∧ (drawUpcABars (JsBitmap.make 107 60) ("123456654327".toList) 6 0 50 56).px 96 y = false
        ∧ (drawUpcABars (JsBitmap.make 107 60) ("123456654327".toList) 6 0 50 56).px 97 y = false
        ∧ (drawUpcABars (JsBitmap.make 107 60) ("123456654327".toList) 6 0 50 56).px 99 y = false) := by
  decide

/-- C5 (amended): rendering with format dwim, main digits `12345665432?`
(the 11 digits of the claim plus the checksum placeholder), and short=false
succeeds and produces a UPC-A bitmap 107 pixels wide and 60 pixels tall; its
three guard marks occupy columns 6, 8 (left), 52, 54 (center) and 98, 100
(trailer) — each a full-depth bar through rows 0..56 — while columns 7, 53,
96, 97 and 99 hold no pixel at all.  In particular the trailer guard sits at
columns 98 and 100, not at the claimed 96 and 98.  (Holds for every glyph
font, which only affects the human-readable digit cells.) -/
theorem dwim_example_upcA_layout (font : Font) :
    ∃ bm, makeBarcode font "dwim" ("12345665432?".toList) false = Except.ok bm
      ∧ bm.width = 107 ∧ bm.height = 60
      ∧ (∀ y, y ≤ 56 → ∀ a ∈ ([6, 8, 52, 54, 98, 100] : List Nat), bm.px a y = true)
      ∧ (∀ y, y < 60 → ∀ a ∈ ([7, 53, 96, 97, 99] : List Nat), bm.px a y = false) := by
  refine ⟨makeUpcAFull font ("123456654327".toList) 0 0, rfl, rfl, rfl, ?_, ?_⟩
  · intro y hy a ha
    fin_cases ha
    · rw [makeUpcAFull_px_off_glyphs font (by decide)]
      exact (upcA_example_bars_guard_cols y hy).1
    · rw [makeUpcAFull_px_off_glyphs font (by decide)]
      exact (upcA_example_bars_guard_cols y hy).2.1
    · rw [makeUpcAFull_px_off_glyphs font (by decide)]
      exact (upcA_example_bars_guard_cols y hy).2.2.1
    · rw [makeUpcAFull_px_off_glyphs font (by decide)]
      exact (upcA_example_bars_guard_cols y hy).2.2.2.1
    · rw [makeUpcAFull_px_off_glyphs font (by decide)]
      exact (upcA_example_bars_guard_cols y hy).2.2.2.2.1
    · rw [makeUpcAFull_px_off_glyphs font (by decide)]
      exact (upcA_example_bars_guard_cols y hy).2.2.2.2.2
  · intro y hy a ha
    fin_cases ha
    · rw [makeUpcAFull_px_off_glyphs font (by decide)]
      exact (upcA_example_bars_blank_cols y hy).1
    · rw [makeUpcAFull_px_off_glyphs font (by decide)]
      exact (upcA_example_bars_blank_cols y hy).2.1
    · rw [makeUpcAFull_px_off_glyphs font (by decide)]
      exact (upcA_example_bars_blank_cols y hy).2.2.1
    · rw [makeUpcAFull_px_off_glyphs font (by decide)]
      exact (upcA_example_bars_blank_cols y hy).2.2.2.1
    · rw [makeUpcAFull_px_off_glyphs font (by decide)]
      exact (upcA_example_bars_blank_cols y hy).2.2.2.2

end BarcodeJs

/-- C5 witness: the amended layout at the all-blank font, sampled at row 0 of
a guard column and of a claimed-but-empty column. -/
theorem dwim_example_upcA_layout_w :
    ∃ bm, BarcodeJs.makeBarcode BarcodeJs.font0 "dwim" ("12345665432?".toList) false
        = Except.ok bm
      ∧ bm.width = 107 ∧ bm.px 6 0 = true ∧ bm.px 96 0 = false := by
  obtain ⟨bm, h1, h2, h3, h4, h5⟩ := BarcodeJs.dwim_example_upcA_layout BarcodeJs.font0
  exact ⟨bm, h1, h2, h4 0 (by decide) 6 (by decide), h5 0 (by decide) 96 (by decide)⟩
